import Mathlib

/-!
Shallow embedding of the Climate Data Editor pipeline: the `editor_page`
function of `src/cde.py` (lines 33-175), which normalizes an uploaded monthly
climate table, validates it, aggregates it by calendar month and renders an
R code block.

Modelling choices:
* A pandas DataFrame is a `Table`: a list of column names together with a list
  of rows; a row is an association list from column name to cell.
* Cells are modelled after numeric coercion: `some q` is a numeric value and
  `none` is a missing or unparsable value (pandas NaN).  On this
  representation `pd.to_numeric(..., errors='coerce')` is the identity, and
  `dropna` filters rows on `Option.isSome`.
* Numbers are rationals.  `astype(int)` is numpy's float-to-int cast, which
  truncates toward zero (`ratTrunc`); Python's integer `//` and `%` are
  flooring division and modulus, `Int.fdiv` and `Int.fmod`.
* The Python format `f"{x:.1f}"` is modelled as rounding `10 * x` half up
  (`qround`) and printing with one fractional digit; the difference with the
  round-half-to-even rule applied to binary doubles is visible only on exact
  ties, which none of the statements below depend on.
* The column names produced by `groupby('Month').agg(...)` after the rename on
  line 128 of the source are `Rain_mean`, `Tmax_max`, `Tmin_mean`, `Tmin_min`
  (pandas emits the pair (column, aggregate name) for every entry of a dict
  aggregation containing a list); the renderer on lines 149-152 subscripts the
  summary frame with `Rain`, `Tmax`, `Tmin` and `Tmin_abs`, and a missing
  column raises `KeyError`, modelled by `tableColumn` returning an error.
-/

set_option maxRecDepth 1000000

namespace CDE

abbrev Cell := Option ℚ

abbrev Row := List (String × Cell)

structure Table where
  cols : List String
  rows : List Row
deriving DecidableEq

/-- Value of column `c` in row `r`; `none` when the entry is absent or NaN. -/
def getCell (r : Row) (c : String) : Cell :=
  (List.lookup c r).join

/-- Write column `c` of row `r` (pandas column assignment, one row). -/
def setEntry (r : Row) (c : String) (v : Cell) : Row :=
  (c, v) :: r.filter (fun p => p.1 != c)

/-- Model of `df.dropna(subset=subset)`: keep the rows whose `subset` cells
are all non-null. -/
def dropna (t : Table) (subset : List String) : Table :=
  { t with rows := t.rows.filter (fun r => subset.all (fun c => (getCell r c).isSome)) }

/-- Model of `df[c] = f(row)` for every row (adds the column if absent). -/
def setCol (t : Table) (c : String) (f : Row → Cell) : Table :=
  { cols := if c ∈ t.cols then t.cols else t.cols ++ [c]
    rows := t.rows.map (fun r => setEntry r c (f r)) }

/-- Pointwise transformation of one column (used for `astype(int)`). -/
def mapCol (t : Table) (c : String) (f : ℚ → ℚ) : Table :=
  setCol t c (fun r => (getCell r c).map f)

/-- Model of `df.drop(columns=[c])`. -/
def dropCol (t : Table) (c : String) : Table :=
  { cols := t.cols.filter (fun x => x != c)
    rows := t.rows.map (fun r => r.filter (fun p => p.1 != c)) }

/-- Model of `df.rename(columns=...)` for a renaming function. -/
def renameCols (t : Table) (f : String → String) : Table :=
  { cols := t.cols.map f
    rows := t.rows.map (fun r => r.map (fun p => (f p.1, p.2))) }

/-- Truncation toward zero, numpy's `astype(int)` on a finite float. -/
def ratTrunc (q : ℚ) : ℤ :=
  Int.tdiv q.num q.den

/-- Computable floor of a rational. -/
def qfloor (q : ℚ) : ℤ :=
  Int.fdiv q.num q.den

/-- Computable round-half-up of a rational. -/
def qround (q : ℚ) : ℤ :=
  qfloor (q + 1 / 2)

/-- Column renaming of the Hungarian Meteorological Service branch
(src/cde.py lines 43-48). -/
def hmsRename (c : String) : String :=
  if c = "Time" then "YearMonth"
  else if c = "rau" then "Rain"
  else if c = "tn" then "Tmin"
  else if c = "tx" then "Tmax"
  else c

/-- Shared YYYYMM handling (src/cde.py lines 51-56 and 83-88): coerce the code
column, drop rows where coercion failed, cast to int, then derive
`Year = code // 100` and `Month = code % 100` and drop the code column. -/
def splitYearMonth (t : Table) (col : String) : Table :=
  let t1 := mapCol (dropna t [col]) col (fun q => ((ratTrunc q : ℤ) : ℚ))
  let t2 := setCol t1 "Year" (fun r => (getCell r col).map (fun q => ((Int.fdiv (ratTrunc q) 100 : ℤ) : ℚ)))
  let t3 := setCol t2 "Month" (fun r => (getCell r col).map (fun q => ((Int.fmod (ratTrunc q) 100 : ℤ) : ℚ)))
  dropCol t3 col

/-- Normalization of the agency (Hungarian Meteorological Service) format
(src/cde.py lines 40-62). -/
def hmsNormalize (df : Table) : Table :=
  splitYearMonth (renameCols df hmsRename) "YearMonth"

/-- Normalization of the separate `Year`/`Month` format (lines 67-73):
coerce both date columns and drop rows where either failed, then cast to
int.  The measurement columns are left untouched. -/
def sepNormalize (df : Table) : Table :=
  mapCol (mapCol (dropna df ["Year", "Month"]) "Year" (fun q => ((ratTrunc q : ℤ) : ℚ)))
    "Month" (fun q => ((ratTrunc q : ℤ) : ℚ))

/-- Column chosen by the combined branch (line 81): `YearMonth` if present,
otherwise `Time`. -/
def combCol (cols : List String) : String :=
  if cols.contains "YearMonth" then "YearMonth" else "Time"

/-- Normalization of the combined `YearMonth`/`Time` format (lines 79-88). -/
def combNormalize (df : Table) : Table :=
  splitYearMonth df (combCol df.cols)

/-- Model of `df['Month'].between(1, 12).all()` (lines 74 and 89); a NaN month
makes `between` false. -/
def monthsInRange (t : Table) : Bool :=
  t.rows.all (fun r =>
    match getCell r "Month" with
    | some m => decide (1 ≤ m ∧ m ≤ 12)
    | none => false)

/-- Structural test of the agency format (line 40):
`{'Time','rau','tn','tx'}.issubset(df.columns)`. -/
def hmsFormat (cols : List String) : Bool :=
  ["Time", "rau", "tn", "tx"].all (fun c => cols.contains c)

inductive Convention
  | hms
  | separate
  | combined
  | unrecognized
deriving DecidableEq

/-- The if/elif chain over the column set (lines 40, 67, 79, 94): the first
structural match wins. -/
def classify (cols : List String) : Convention :=
  if hmsFormat cols then .hms
  else if cols.contains "Year" && cols.contains "Month" then .separate
  else if cols.contains "YearMonth" || cols.contains "Time" then .combined
  else .unrecognized

inductive PipeError
  | monthOutOfRange
  | unrecognizedSchema
  | missingColumns (required : List String)
  | missingValues
  | incompleteYears (years : List ℚ)
deriving DecidableEq

/-- Required columns of the agency branch (line 62). -/
def hmsRequired : List String :=
  ["Year", "Month", "Rain", "Tmin", "Tmax"]

/-- Required columns of the two standard branches (lines 66, 77, 92). -/
def stdRequired : List String :=
  ["Rain", "Tmin", "Tmax", "Year", "Month"]

/-- Model of `all(col in df.columns for col in required_columns)` (line 105). -/
def requiredPresent (t : Table) (required : List String) : Bool :=
  required.all (fun c => t.cols.contains c)

/-- Model of `df[required_columns].isnull().any().any()` (line 109). -/
def anyNullIn (t : Table) (required : List String) : Bool :=
  t.rows.any (fun r => required.any (fun c => (getCell r c).isNone))

/-- Distinct `Year` values in ascending order (pandas `groupby` sorts its
keys and drops NaN keys). -/
def yearsSorted (t : Table) : List ℚ :=
  List.insertionSort (· ≤ ·) ((t.rows.filterMap (fun r => getCell r "Year")).dedup)

/-- Model of `df.groupby('Year')['Month'].count()` for one year: the number of
rows of that year carrying a non-null `Month`. -/
def yearCount (t : Table) (y : ℚ) : Nat :=
  (t.rows.filter (fun r => decide (getCell r "Year" = some y) && (getCell r "Month").isSome)).length

/-- Model of lines 113-114: the years whose per-year record count differs
from 12.  The count is a record count, not a count of distinct months. -/
def incompleteYearsOf (t : Table) : List ℚ :=
  (yearsSorted t).filter (fun y => yearCount t y != 12)

/-- The common validation of lines 105-117, in source order: required columns
present, then no nulls in required columns, then no incomplete years. -/
def commonValidate (df : Table) (required : List String) : Except PipeError Table :=
  if !requiredPresent df required then .error (.missingColumns required)
  else if anyNullIn df required then .error .missingValues
  else if !(incompleteYearsOf df).isEmpty then .error (.incompleteYears (incompleteYearsOf df))
  else .ok df

/-- Lines 40-117: schema dispatch, per-branch normalization (with the month
range check in the two standard branches only) and the common validation. -/
def normalizeAndValidate (df : Table) : Except PipeError Table :=
  match classify df.cols with
  | .hms => commonValidate (hmsNormalize df) hmsRequired
  | .separate =>
      let t := sepNormalize df
      if !monthsInRange t then .error .monthOutOfRange
      else commonValidate t stdRequired
  | .combined =>
      let t := combNormalize df
      if !monthsInRange t then .error .monthOutOfRange
      else commonValidate t stdRequired
  | .unrecognized => .error .unrecognizedSchema

/-- Arithmetic mean as pandas computes it over the non-null values of a
column slice (sum divided by count). -/
def listMean (vs : List ℚ) : ℚ :=
  vs.sum / vs.length

def listMax : List ℚ → ℚ
  | [] => 0
  | v :: vs => vs.foldl max v

def listMin : List ℚ → ℚ
  | [] => 0
  | v :: vs => vs.foldl min v

/-- Non-null values of column `c` over a set of rows. -/
def columnVals (rows : List Row) (c : String) : List ℚ :=
  rows.filterMap (fun r => getCell r c)

/-- Distinct months in ascending order: the group keys of
`df.groupby('Month')` (line 123). -/
def monthsSorted (t : Table) : List ℚ :=
  List.insertionSort (· ≤ ·) ((t.rows.filterMap (fun r => getCell r "Month")).dedup)

/-- The rows of the group of month `m`. -/
def monthGroup (t : Table) (m : ℚ) : List Row :=
  t.rows.filter (fun r => decide (getCell r "Month" = some m))

structure Summary where
  month : ℚ
  rain_mean : ℚ
  tmax_max : ℚ
  tmin_mean : ℚ
  tmin_min : ℚ
deriving DecidableEq

/-- One output row of `groupby('Month').agg(...)` (lines 123-127). -/
def summarize (t : Table) (m : ℚ) : Summary :=
  { month := m
    rain_mean := listMean (columnVals (monthGroup t m) "Rain")
    tmax_max := listMax (columnVals (monthGroup t m) "Tmax")
    tmin_mean := listMean (columnVals (monthGroup t m) "Tmin")
    tmin_min := listMin (columnVals (monthGroup t m) "Tmin") }

/-- The monthly aggregation table, one row per distinct month present, in
ascending month order. -/
def monthlyAgg (t : Table) : List Summary :=
  (monthsSorted t).map (summarize t)

/-- Column names of `monthly_avg` after the rename of line 128 and the
`reset_index()` of line 129. -/
def monthlyAvgCols : List String :=
  ["Month", "Rain_mean", "Tmax_max", "Tmin_mean", "Tmin_min"]

def summaryRow (s : Summary) : Row :=
  [("Month", some s.month), ("Rain_mean", some s.rain_mean), ("Tmax_max", some s.tmax_max),
   ("Tmin_mean", some s.tmin_mean), ("Tmin_min", some s.tmin_min)]

/-- The `monthly_avg` data frame of lines 123-129 as a table. -/
def monthlyAvgTable (t : Table) : Table :=
  { cols := monthlyAvgCols
    rows := (monthlyAgg t).map summaryRow }

/-- Line 131: `df['Tmin'].min()`. -/
def absoluteTmin (t : Table) : ℚ :=
  listMin (columnVals t.rows "Tmin")

/-- Line 132: `df['Tmax'].max()`. -/
def absoluteTmax (t : Table) : ℚ :=
  listMax (columnVals t.rows "Tmax")

/-- The rows of the group of year `y`. -/
def yearGroup (t : Table) (y : ℚ) : List Row :=
  t.rows.filter (fun r => decide (getCell r "Year" = some y))

/-- Line 135: `df.groupby('Year')['Rain'].sum()`, one entry per distinct
year in ascending order. -/
def yearlyRainfall (t : Table) : List ℚ :=
  (yearsSorted t).map (fun y => (columnVals (yearGroup t y) "Rain").sum)

/-- Line 136: the mean of the yearly rainfall totals. -/
def averageYearlyRainfall (t : Table) : ℚ :=
  listMean (yearlyRainfall t)

def digitChar (d : Nat) : Char :=
  Char.ofNat (48 + d)

/-- Decimal digits of `n`, most significant first, with explicit fuel so that
the definition is structural. -/
def natDigits : Nat → Nat → List Char
  | 0, _ => []
  | fuel + 1, n => if n < 10 then [digitChar n] else natDigits fuel (n / 10) ++ [digitChar (n % 10)]

def natStr (n : Nat) : String :=
  String.mk (natDigits (n + 1) n)

/-- Model of Python's `f"{x:.1f}"`: one fractional digit. -/
def fmt1 (q : ℚ) : String :=
  let n : ℤ := qround (q * 10)
  (if n < 0 then "-" else "") ++ natStr (n.natAbs / 10) ++ "." ++ natStr (n.natAbs % 10)

/-- One comma-joined sequence of formatted values (lines 149-152). -/
def seqStr (vs : List ℚ) : String :=
  String.intercalate ", " (vs.map fmt1)

/-- The R text block of lines 154-171, as a function of the four value
sequences and the verbatim station name and elevation strings. -/
def rcodeText (station elevation : String) (rain tmax tmin tminAbs : List ℚ) : String :=
  "library(climatol)\n\n" ++
  "rain <- c(" ++ seqStr rain ++ ")\n" ++
  "tmax <- c(" ++ seqStr tmax ++ ")\n" ++
  "tmin <- c(" ++ seqStr tmin ++ ")\n" ++
  "tmin_abs <- c(" ++ seqStr tminAbs ++ ")\n\n" ++
  "data.matrix <- rbind(\n  rain,\n  tmax,\n  tmin,\n  tmin_abs)\n\n" ++
  "diagwl(data.matrix,\n" ++
  "       est=\"" ++ station ++ "\",\n" ++
  "       cols=NULL,\n" ++
  "       alt=\"" ++ elevation ++ "\",\n" ++
  "       mlab=\"en\")\n"

/-- Model of `monthly_avg[c]`: the column when present, a `KeyError` carrying
the key otherwise. -/
def tableColumn (t : Table) (c : String) : Except String (List ℚ) :=
  if c ∈ t.cols then .ok (columnVals t.rows c) else .error c

/-- Lines 149-172: the renderer reads the columns `Rain`, `Tmax`, `Tmin`,
`Tmin_abs` of the summary frame and builds the text block; a missing column
aborts with the offending key. -/
def renderBlock (station elevation : String) (mavg : Table) : Except String String := do
  let rain ← tableColumn mavg "Rain"
  let tmax ← tableColumn mavg "Tmax"
  let tmin ← tableColumn mavg "Tmin"
  let tminAbs ← tableColumn mavg "Tmin_abs"
  pure (rcodeText station elevation rain tmax tmin tminAbs)

structure Output where
  summaries : List Summary
  absTmin : ℚ
  absTmax : ℚ
  avgYearRain : ℚ
  rcode : Except String String

/-- Lines 123-172: everything computed and displayed after validation.  The
renderer's result is kept as an `Except` because its column lookups can fail
(the failure is the `except` branch of line 174 in the source). -/
def processValidated (station elevation : String) (t : Table) : Output :=
  { summaries := monthlyAgg t
    absTmin := absoluteTmin t
    absTmax := absoluteTmax t
    avgYearRain := averageYearlyRainfall t
    rcode := renderBlock station elevation (monthlyAvgTable t) }

/-- The whole `editor_page` data path for one uploaded table. -/
def editorPipeline (station elevation : String) (df : Table) : Except PipeError Output :=
  (normalizeAndValidate df).map (processValidated station elevation)

/-- The twelve calendar months as rational values. -/
def monthLits : List ℚ :=
  [1, 2, 3, 4, 5, 6, 7, 8, 9, 10, 11, 12]

/-- Distinct years of a table as a finite set. -/
def yearsFinset (t : Table) : Finset ℚ :=
  (t.rows.filterMap (fun r => getCell r "Year")).toFinset

/-- Statement-side definition following the words of claim C10: the
arithmetic mean, over all years present, of each year's sum of monthly Rain
values. -/
def meanYearlySumSpec (t : Table) : ℚ :=
  (∑ y ∈ yearsFinset t, (columnVals (yearGroup t y) "Rain").sum) / (yearsFinset t).card

/-! Concrete input tables used by the claim instances below. -/

def sepCols : List String :=
  ["Year", "Month", "Rain", "Tmin", "Tmax"]

def agencyCols : List String :=
  ["Time", "rau", "tn", "tx"]

def mkSepRow (y m rain tmin tmax : ℚ) : Row :=
  [("Year", some y), ("Month", some m), ("Rain", some rain), ("Tmin", some tmin), ("Tmax", some tmax)]

def mkAgencyRow (time rain tmin tmax : ℚ) : Row :=
  [("Time", some time), ("rau", some rain), ("tn", some tmin), ("tx", some tmax)]

def mkCombRow (ym rain tmin tmax : ℚ) : Row :=
  [("YearMonth", some ym), ("Rain", some rain), ("Tmin", some tmin), ("Tmax", some tmax)]

/-- Twelve records of year 2014 with month 1 duplicated and month 12 absent:
a year with 12 records but only 11 distinct months. -/
def c1Tbl : Table :=
  { cols := sepCols
    rows := [mkSepRow 2014 1 30 (-5) 10, mkSepRow 2014 1 32 (-6) 11,
             mkSepRow 2014 2 20 (-10) 12, mkSepRow 2014 3 10 (-2) 20,
             mkSepRow 2014 4 12 1 24, mkSepRow 2014 5 22 6 28,
             mkSepRow 2014 6 31 11 33, mkSepRow 2014 7 41 13 36,
             mkSepRow 2014 8 33 12 35, mkSepRow 2014 9 24 7 29,
             mkSepRow 2014 10 16 2 21, mkSepRow 2014 11 13 (-2) 14] }

/-- Agency-format table for year 2014 with codes 201402 .. 201413: the last
record carries month 13. -/
def c2Tbl : Table :=
  { cols := agencyCols
    rows := [mkAgencyRow 201402 21 (-13) 15, mkAgencyRow 201403 11 (-2) 23,
             mkAgencyRow 201404 10 0 25, mkAgencyRow 201405 20 5 30,
             mkAgencyRow 201406 30 10 35, mkAgencyRow 201407 40 12 38,
             mkAgencyRow 201408 35 11 37, mkAgencyRow 201409 25 6 30,
             mkAgencyRow 201410 15 1 22, mkAgencyRow 201411 12 (-3) 15,
             mkAgencyRow 201412 14 (-3) 11, mkAgencyRow 201413 9 (-8) 7] }

/-- Combined-code table containing the scenario row `YearMonth = 201413`. -/
def c2CombTbl : Table :=
  { cols := ["YearMonth", "Rain", "Tmin", "Tmax"]
    rows := [[("YearMonth", some 201413), ("Rain", some 5), ("Tmin", some 1), ("Tmax", some 2)]] }

/-- Separate-format table with an out-of-range month 0. -/
def c2SepTbl : Table :=
  { cols := sepCols
    rows := [mkSepRow 2014 0 1 2 3] }

/-- One-record table used to instantiate the aggregation statistics. -/
def c3Tbl : Table :=
  { cols := sepCols
    rows := [mkSepRow 2019 5 41.5 (-3.5) 22.5] }

/-- Table whose columns match no supported convention. -/
def c4Tbl : Table :=
  { cols := ["Precip", "Temp"]
    rows := [[("Precip", some 1), ("Temp", some 2)]] }

/-- The agency scenario row: `Time=201401, rau=36.9, tn=-7.4, tx=13.8`. -/
def c5Tbl : Table :=
  { cols := agencyCols
    rows := [mkAgencyRow 201401 36.9 (-7.4) 13.8] }

/-- Twelve records of year 2015 with month 2 duplicated and month 3 absent:
passes the per-year record count check with only 11 distinct months. -/
def c6Tbl : Table :=
  { cols := sepCols
    rows := [mkSepRow 2015 1 30 (-5) 10, mkSepRow 2015 2 32 (-6) 11,
             mkSepRow 2015 2 20 (-10) 12, mkSepRow 2015 4 10 (-2) 20,
             mkSepRow 2015 5 12 1 24, mkSepRow 2015 6 22 6 28,
             mkSepRow 2015 7 31 11 33, mkSepRow 2015 8 41 13 36,
             mkSepRow 2015 9 33 12 35, mkSepRow 2015 10 24 7 29,
             mkSepRow 2015 11 16 2 21, mkSepRow 2015 12 13 (-2) 14] }

/-- A complete single year 2016, months 1 .. 12. -/
def c6wTbl : Table :=
  { cols := sepCols
    rows := [mkSepRow 2016 1 30 (-5) 10, mkSepRow 2016 2 32 (-6) 11,
             mkSepRow 2016 3 20 (-10) 12, mkSepRow 2016 4 10 (-2) 20,
             mkSepRow 2016 5 12 1 24, mkSepRow 2016 6 22 6 28,
             mkSepRow 2016 7 31 11 33, mkSepRow 2016 8 41 13 36,
             mkSepRow 2016 9 33 12 35, mkSepRow 2016 10 24 7 29,
             mkSepRow 2016 11 16 2 21, mkSepRow 2016 12 13 (-2) 14] }

/-- A complete single year 2014 with decimal measurements; passes every
validation check. -/
def c7Tbl : Table :=
  { cols := sepCols
    rows := [mkSepRow 2014 1 36.9 (-7.4) 13.8, mkSepRow 2014 2 21.7 (-13.5) 15.7,
             mkSepRow 2014 3 11.6 (-2.5) 23.1, mkSepRow 2014 4 10 0 25,
             mkSepRow 2014 5 20 5 30, mkSepRow 2014 6 30 10 35,
             mkSepRow 2014 7 40 12 38, mkSepRow 2014 8 35 11 37,
             mkSepRow 2014 9 25 6 30, mkSepRow 2014 10 15 1 22,
             mkSepRow 2014 11 12 (-3) 15, mkSepRow 2014 12 14.9 (-3.5) 11.2] }

/-- A complete year 2016 except that the Rain value of month 1 is null. -/
def c8Tbl : Table :=
  { cols := sepCols
    rows := [[("Year", some 2016), ("Month", some 1), ("Rain", none), ("Tmin", some (-5)), ("Tmax", some 10)],
             mkSepRow 2016 2 32 (-6) 11, mkSepRow 2016 3 20 (-10) 12,
             mkSepRow 2016 4 10 (-2) 20, mkSepRow 2016 5 12 1 24,
             mkSepRow 2016 6 22 6 28, mkSepRow 2016 7 31 11 33,
             mkSepRow 2016 8 41 13 36, mkSepRow 2016 9 33 12 35,
             mkSepRow 2016 10 24 7 29, mkSepRow 2016 11 16 2 21,
             mkSepRow 2016 12 13 (-2) 14] }

/-- Two rows, one with a null Month cell: date coercion failure. -/
def c8DropTbl : Table :=
  { cols := sepCols
    rows := [[("Year", some 2017), ("Month", none), ("Rain", some 1), ("Tmin", some 2), ("Tmax", some 3)],
             mkSepRow 2017 2 4 5 6] }

/-- Separate-format table that both lacks the Rain column and contains the
month value 13. -/
def c9Tbl : Table :=
  { cols := ["Year", "Month", "Tmin", "Tmax"]
    rows := [[("Year", some 2014), ("Month", some 13), ("Tmin", some 0), ("Tmax", some 1)]] }

/-- Separate-format table lacking the Rain column whose month is in range. -/
def c9ColsTbl : Table :=
  { cols := ["Year", "Month", "Tmin", "Tmax"]
    rows := [[("Year", some 2014), ("Month", some 1), ("Tmin", some 0), ("Tmax", some 1)]] }

/-- Separate-format table with a null Tmin value and a month in range. -/
def c9NullTbl : Table :=
  { cols := sepCols
    rows := [[("Year", some 2014), ("Month", some 1), ("Rain", some 3), ("Tmin", none), ("Tmax", some 1)]] }

/-- Separate-format table with a single record: year 2014 is incomplete. -/
def c9IncTbl : Table :=
  { cols := sepCols
    rows := [mkSepRow 2014 1 3 0 1] }

/-- Combined-format year 2018, months 1 .. 12, with a null Rain in month 1. -/
def c8CombTbl : Table :=
  { cols := ["YearMonth", "Rain", "Tmin", "Tmax"]
    rows := [[("YearMonth", some 201801), ("Rain", none), ("Tmin", some (-4)), ("Tmax", some 9)],
             mkCombRow 201802 31 (-5) 12, mkCombRow 201803 21 (-9) 13,
             mkCombRow 201804 11 (-1) 21, mkCombRow 201805 13 2 25,
             mkCombRow 201806 23 7 29, mkCombRow 201807 32 12 34,
             mkCombRow 201808 42 14 37, mkCombRow 201809 34 13 36,
             mkCombRow 201810 25 8 30, mkCombRow 201811 17 3 22,
             mkCombRow 201812 14 (-1) 15] }

/-- Two combined-format rows, one with a null YearMonth cell. -/
def c8CombDropTbl : Table :=
  { cols := ["YearMonth", "Rain", "Tmin", "Tmax"]
    rows := [[("YearMonth", none), ("Rain", some 1), ("Tmin", some 2), ("Tmax", some 3)],
             mkCombRow 201802 4 5 6] }

/-- Agency-format year 2019, months 1 .. 12, with a null rau in month 1. -/
def c8HmsTbl : Table :=
  { cols := agencyCols
    rows := [[("Time", some 201901), ("rau", none), ("tn", some (-3)), ("tx", some 8)],
             mkAgencyRow 201902 30 (-4) 11, mkAgencyRow 201903 20 (-8) 12,
             mkAgencyRow 201904 10 0 20, mkAgencyRow 201905 12 3 24,
             mkAgencyRow 201906 22 8 28, mkAgencyRow 201907 31 13 33,
             mkAgencyRow 201908 41 15 36, mkAgencyRow 201909 33 14 35,
             mkAgencyRow 201910 24 9 29, mkAgencyRow 201911 16 4 21,
             mkAgencyRow 201912 13 0 14] }

/-- Combined-format table that lacks the Rain column and carries the code
201413 (month 13). -/
def c9CombTbl : Table :=
  { cols := ["YearMonth", "Tmin", "Tmax"]
    rows := [[("YearMonth", some 201413), ("Tmin", some 0), ("Tmax", some 1)]] }

/-- Combined-format table lacking the Rain column with a month in range. -/
def c9CombColsTbl : Table :=
  { cols := ["YearMonth", "Tmin", "Tmax"]
    rows := [[("YearMonth", some 201401), ("Tmin", some 0), ("Tmax", some 1)]] }

/-- Combined-format table with a null Tmin value and a month in range. -/
def c9CombNullTbl : Table :=
  { cols := ["YearMonth", "Rain", "Tmin", "Tmax"]
    rows := [[("YearMonth", some 201401), ("Rain", some 3), ("Tmin", none), ("Tmax", some 1)]] }

/-- Combined-format table with a single record: year 2014 is incomplete. -/
def c9CombIncTbl : Table :=
  { cols := ["YearMonth", "Rain", "Tmin", "Tmax"]
    rows := [mkCombRow 201401 3 0 1] }

/-- Agency-format table with a null tn value (year otherwise incomplete). -/
def c9HmsNullTbl : Table :=
  { cols := agencyCols
    rows := [[("Time", some 201401), ("rau", some 3), ("tn", none), ("tx", some 1)]] }

/-- Agency-format table with a single record: year 2014 is incomplete. -/
def c9HmsIncTbl : Table :=
  { cols := agencyCols
    rows := [mkAgencyRow 201401 3 0 1] }

/-! Helper lemmas about the fold-based statistics. -/

theorem le_foldl_max : ∀ (l : List ℚ) (a : ℚ), a ≤ l.foldl max a ∧ ∀ v ∈ l, v ≤ l.foldl max a
  | [], a => ⟨le_refl a, by simp⟩
  | x :: xs, a => by
    obtain ⟨h1, h2⟩ := le_foldl_max xs (max a x)
    rw [List.foldl_cons]
    refine ⟨le_trans (le_max_left a x) h1, ?_⟩
    intro v hv
    rcases List.mem_cons.mp hv with rfl | hv
    · exact le_trans (le_max_right a v) h1
    · exact h2 v hv

theorem foldl_max_mem : ∀ (l : List ℚ) (a : ℚ), l.foldl max a = a ∨ l.foldl max a ∈ l
  | [], _ => Or.inl rfl
  | x :: xs, a => by
    rw [List.foldl_cons]
    rcases foldl_max_mem xs (max a x) with h | h
    · rcases max_choice a x with hc | hc
      · exact Or.inl (by rw [h, hc])
      · exact Or.inr (by rw [h, hc]; exact List.mem_cons_self x xs)
    · exact Or.inr (List.mem_cons_of_mem x h)

theorem foldl_min_le : ∀ (l : List ℚ) (a : ℚ), l.foldl min a ≤ a ∧ ∀ v ∈ l, l.foldl min a ≤ v
  | [], a => ⟨le_refl a, by simp⟩
  | x :: xs, a => by
    obtain ⟨h1, h2⟩ := foldl_min_le xs (min a x)
    rw [List.foldl_cons]
    refine ⟨le_trans h1 (min_le_left a x), ?_⟩
    intro v hv
    rcases List.mem_cons.mp hv with rfl | hv
    · exact le_trans h1 (min_le_right a v)
    · exact h2 v hv

theorem foldl_min_mem : ∀ (l : List ℚ) (a : ℚ), l.foldl min a = a ∨ l.foldl min a ∈ l
  | [], _ => Or.inl rfl
  | x :: xs, a => by
    rw [List.foldl_cons]
    rcases foldl_min_mem xs (min a x) with h | h
    · rcases min_choice a x with hc | hc
      · exact Or.inl (by rw [h, hc])
      · exact Or.inr (by rw [h, hc]; exact List.mem_cons_self x xs)
    · exact Or.inr (List.mem_cons_of_mem x h)

/-- On a nonempty list, `listMax` is a member and an upper bound. -/
theorem listMax_spec (l : List ℚ) (h : l ≠ []) :
    listMax l ∈ l ∧ ∀ v ∈ l, v ≤ listMax l := by
  match l with
  | [] => exact absurd rfl h
  | x :: xs =>
    show List.foldl max x xs ∈ x :: xs ∧ ∀ v ∈ x :: xs, v ≤ List.foldl max x xs
    constructor
    · rcases foldl_max_mem xs x with h1 | h1
      · rw [h1]; exact List.mem_cons_self x xs
      · exact List.mem_cons_of_mem x h1
    · intro v hv
      obtain ⟨ha, hall⟩ := le_foldl_max xs x
      rcases List.mem_cons.mp hv with rfl | hv
      · exact ha
      · exact hall v hv

/-- On a nonempty list, `listMin` is a member and a lower bound. -/
theorem listMin_spec (l : List ℚ) (h : l ≠ []) :
    listMin l ∈ l ∧ ∀ v ∈ l, listMin l ≤ v := by
  match l with
  | [] => exact absurd rfl h
  | x :: xs =>
    show List.foldl min x xs ∈ x :: xs ∧ ∀ v ∈ x :: xs, List.foldl min x xs ≤ v
    constructor
    · rcases foldl_min_mem xs x with h1 | h1
      · rw [h1]; exact List.mem_cons_self x xs
      · exact List.mem_cons_of_mem x h1
    · intro v hv
      obtain ⟨ha, hall⟩ := foldl_min_le xs x
      rcases List.mem_cons.mp hv with rfl | hv
      · exact ha
      · exact hall v hv

theorem listMean_singleton (v : ℚ) : listMean [v] = v := by
  simp [listMean]

/-! Helper lemmas about rows and cells. -/

theorem lookup_filterKey_ne {c c' : String} (h : c' ≠ c) :
    ∀ r : Row, List.lookup c' (r.filter (fun p => p.1 != c)) = List.lookup c' r := by
  intro r
  induction r with
  | nil => rfl
  | cons p tl ih =>
    by_cases hk : p.1 = c
    · have hfp : (p.1 != c) = false := by simp [hk]
      have hne : (c' == p.1) = false := beq_eq_false_iff_ne.mpr (by rw [hk]; exact h)
      rw [List.filter_cons, hfp]
      simp only [Bool.false_eq_true, if_false, ih, List.lookup, hne]
    · have hfp : (p.1 != c) = true := by simp [hk]
      rw [List.filter_cons, hfp]
      simp only [if_true, List.lookup, ih]

theorem getCell_setEntry_same (r : Row) (c : String) (v : Cell) :
    getCell (setEntry r c v) c = v := by
  simp [getCell, setEntry, List.lookup]

theorem getCell_setEntry_ne (r : Row) {c c' : String} (v : Cell) (h : c' ≠ c) :
    getCell (setEntry r c v) c' = getCell r c' := by
  unfold getCell setEntry
  have hne : (c' == c) = false := beq_eq_false_iff_ne.mpr h
  simp only [List.lookup, hne, lookup_filterKey_ne h]

theorem getCell_filterKey_ne (r : Row) {c c' : String} (h : c' ≠ c) :
    getCell (r.filter (fun p => p.1 != c)) c' = getCell r c' := by
  unfold getCell
  rw [lookup_filterKey_ne h]

/-- A record with an out-of-range month falsifies the range check. -/
theorem monthsInRange_eq_false {t : Table} {r : Row} {m : ℚ}
    (hr : r ∈ t.rows) (hm : getCell r "Month" = some m) (hout : m < 1 ∨ 12 < m) :
    monthsInRange t = false := by
  unfold monthsInRange
  rw [List.all_eq_false]
  refine ⟨r, hr, ?_⟩
  rw [hm]
  simp only [decide_eq_true_eq]
  rintro ⟨h1, h2⟩
  rcases hout with h | h
  · exact absurd h1 (not_le.mpr h)
  · exact absurd h2 (not_le.mpr h)

theorem ratTrunc_intCast (n : ℤ) : ratTrunc (n : ℚ) = n := by
  unfold ratTrunc
  rw [Rat.num_intCast, Rat.den_intCast]
  exact_mod_cast Int.tdiv_one n

/-- When every month cell is one of the twelve integer months and every one
of the twelve occurs, the sorted distinct group keys are exactly 1 .. 12. -/
theorem monthsSorted_of_cover (t : Table)
    (h1 : ∀ r ∈ t.rows, getCell r "Month" ∈ monthLits.map some)
    (h2 : ∀ q ∈ monthLits, some q ∈ t.rows.map (fun r => getCell r "Month")) :
    monthsSorted t = monthLits := by
  unfold monthsSorted
  have hmem : ∀ x : ℚ, (x ∈ t.rows.filterMap (fun r => getCell r "Month")) ↔ x ∈ monthLits := by
    intro x
    constructor
    · intro hx
      rcases List.mem_filterMap.mp hx with ⟨r, hr, hgr⟩
      have hin := h1 r hr
      rw [hgr] at hin
      rcases List.mem_map.mp hin with ⟨q, hq, hqe⟩
      rw [← Option.some.inj hqe]
      exact hq
    · intro hx
      rcases List.mem_map.mp (h2 x hx) with ⟨r, hr, hge⟩
      exact List.mem_filterMap.mpr ⟨r, hr, hge⟩
  have hnodup : (List.dedup (t.rows.filterMap (fun r => getCell r "Month"))).Nodup :=
    List.nodup_dedup _
  have hmem2 : ∀ x : ℚ,
      x ∈ List.dedup (t.rows.filterMap (fun r => getCell r "Month")) ↔ x ∈ monthLits := by
    intro x
    rw [List.mem_dedup]
    exact hmem x
  have hperm : List.Perm (List.dedup (t.rows.filterMap (fun r => getCell r "Month"))) monthLits :=
    (List.perm_ext_iff_of_nodup hnodup (by decide)).mpr hmem2
  exact List.eq_of_perm_of_sorted
    ((List.perm_insertionSort _ _).trans hperm)
    (List.sorted_insertionSort _ _)
    (by decide)

/-- The month field of the aggregation rows enumerates the sorted distinct
months. -/
theorem monthlyAgg_month_map (t : Table) :
    (monthlyAgg t).map Summary.month = monthsSorted t := by
  unfold monthlyAgg
  rw [List.map_map]
  have hid : (Summary.month ∘ summarize t) = id := by
    funext m
    rfl
  rw [hid, List.map_id]

/-- The program's mean of yearly totals equals the mean over the set of years
present of each year's Rain sum. -/
theorem avgYearlyRain_eq_spec (t : Table) :
    averageYearlyRainfall t = meanYearlySumSpec t := by
  unfold averageYearlyRainfall listMean yearlyRainfall meanYearlySumSpec
  have hnd : (yearsSorted t).Nodup :=
    ((List.perm_insertionSort _ _).nodup_iff).mpr (List.nodup_dedup _)
  have hfs : (yearsSorted t).toFinset = yearsFinset t := by
    apply Finset.ext
    intro a
    simp [yearsSorted, yearsFinset, List.mem_dedup]
  rw [← hfs, List.sum_toFinset _ hnd, List.toFinset_card_of_nodup hnd, List.length_map]

/-- The rows of the split table are the null-filtered input rows passed
through the four per-row transformations of `splitYearMonth`. -/
theorem splitYearMonth_rows (t : Table) (col : String) :
    (splitYearMonth t col).rows =
      ((((dropna t [col]).rows.map
          (fun r => setEntry r col ((getCell r col).map (fun q => ((ratTrunc q : ℤ) : ℚ))))).map
          (fun r => setEntry r "Year" ((getCell r col).map (fun q => ((Int.fdiv (ratTrunc q) 100 : ℤ) : ℚ))))).map
          (fun r => setEntry r "Month" ((getCell r col).map (fun q => ((Int.fmod (ratTrunc q) 100 : ℤ) : ℚ))))).map
          (fun r => r.filter (fun p => p.1 != col)) :=
  rfl

/-- Positional description of the YYYYMM split: row `i` of the split table
derives `Year` and `Month` from row `i` of the null-filtered input by floored
division and remainder by 100. -/
theorem splitYearMonth_getElem (t : Table) (col : String)
    (hcy : col ≠ "Year") (hcm : col ≠ "Month")
    (i : ℕ) (r0 : Row) (h0 : (dropna t [col]).rows[i]? = some r0)
    (n : ℤ) (hc : getCell r0 col = some (n : ℚ)) :
    (splitYearMonth t col).rows[i]?.map (fun r' => (getCell r' "Year", getCell r' "Month")) =
      some (some ((Int.fdiv n 100 : ℤ) : ℚ), some ((Int.fmod n 100 : ℤ) : ℚ)) := by
  have hyne : "Year" ≠ col := fun h => hcy h.symm
  have hmne : "Month" ≠ col := fun h => hcm h.symm
  have hymne : ("Year" : String) ≠ "Month" := by decide
  have e1 : getCell (setEntry r0 col ((getCell r0 col).map (fun q => ((ratTrunc q : ℤ) : ℚ)))) col
      = some ((n : ℤ) : ℚ) := by
    rw [getCell_setEntry_same, hc]
    simp [ratTrunc_intCast]
  rw [splitYearMonth_rows]
  simp only [List.getElem?_map, h0, Option.map_some, Option.map_some', Option.some.injEq,
    Prod.mk.injEq]
  constructor
  · rw [getCell_filterKey_ne _ hyne, getCell_setEntry_ne _ _ hymne, getCell_setEntry_same, e1]
    simp [ratTrunc_intCast]
  · rw [getCell_filterKey_ne _ hmne, getCell_setEntry_same, getCell_setEntry_ne _ _ hcy, e1]
    simp [ratTrunc_intCast]

/-- The YYYYMM split keeps exactly the rows whose code cell is non-null:
only the date column's coercion decides dropping. -/
theorem splitYearMonth_length (t : Table) (col : String) :
    (splitYearMonth t col).rows.length =
      (t.rows.filter (fun r => (getCell r col).isSome)).length := by
  rw [splitYearMonth_rows]
  rw [List.length_map, List.length_map, List.length_map, List.length_map]
  unfold dropna
  dsimp only
  congr 1
  apply List.filter_congr
  intro r _
  simp [List.all_cons]

/-! Claim theorems. -/

/-- C1: the completeness check of lines 113-117 counts records per year
instead of distinct months.  The table `c1Tbl` gives year 2014 twelve records
with month 1 duplicated and month 12 missing; the pipeline accepts it and
aggregates only the 11 distinct months present, while the claim (and the
error message of line 116) requires rejection with an incomplete-year error
naming 2014. -/
theorem c1_duplicate_month_accepted :
    (editorPipeline "S" "E" c1Tbl).map (fun o => o.summaries.map Summary.month) =
      Except.ok [1, 2, 3, 4, 5, 6, 7, 8, 9, 10, 11] ∧
    incompleteYearsOf (sepNormalize c1Tbl) = [] ∧
    (sepNormalize c1Tbl).rows.length = 12 := by
  refine ⟨?_, ?_, ?_⟩
  · with_unfolding_all rfl
  · with_unfolding_all rfl
  · with_unfolding_all rfl

/-- C2 counterexample: an agency-format table whose last record carries the
code 201413 (month 13) is not rejected; it passes validation and month 13
reaches the aggregation, because the agency branch has no month range
check. -/
theorem c2_hms_month13_not_rejected :
    (editorPipeline "S" "E" c2Tbl).map (fun o => o.summaries.map Summary.month) =
      Except.ok [2, 3, 4, 5, 6, 7, 8, 9, 10, 11, 12, 13] := by
  with_unfolding_all rfl

/-- C2 (amended): in the separate Year/Month and combined YearMonth/Time
conventions, any normalized record with a month outside [1,12] makes the
pipeline fail with the month-out-of-range error before aggregation; in
particular a combined-code input with YearMonth=201413 is rejected this way.
The agency branch performs no such check. -/
theorem c2_month_range_check (df : Table) (s e : String) :
    (classify df.cols = Convention.separate →
      (∃ r ∈ (sepNormalize df).rows, ∃ m : ℚ, getCell r "Month" = some m ∧ (m < 1 ∨ 12 < m)) →
      editorPipeline s e df = Except.error PipeError.monthOutOfRange) ∧
    (classify df.cols = Convention.combined →
      (∃ r ∈ (combNormalize df).rows, ∃ m : ℚ, getCell r "Month" = some m ∧ (m < 1 ∨ 12 < m)) →
      editorPipeline s e df = Except.error PipeError.monthOutOfRange) ∧
    editorPipeline s e c2CombTbl = Except.error PipeError.monthOutOfRange := by
  refine ⟨?_, ?_, ?_⟩
  · intro hcls hex
    obtain ⟨r, hr, m, hm, hout⟩ := hex
    have hfalse : monthsInRange (sepNormalize df) = false := monthsInRange_eq_false hr hm hout
    unfold editorPipeline normalizeAndValidate
    rw [hcls]
    dsimp only
    rw [hfalse]
    rfl
  · intro hcls hex
    obtain ⟨r, hr, m, hm, hout⟩ := hex
    have hfalse : monthsInRange (combNormalize df) = false := monthsInRange_eq_false hr hm hout
    unfold editorPipeline normalizeAndValidate
    rw [hcls]
    dsimp only
    rw [hfalse]
    rfl
  · with_unfolding_all rfl

/-- C2 witness: concrete separate-format and combined-format inputs with an
out-of-range month are rejected with the month-out-of-range error. -/
theorem c2_month_range_check_witness :
    editorPipeline "S" "E" c2SepTbl = Except.error PipeError.monthOutOfRange ∧
    editorPipeline "S" "E" c2CombTbl = Except.error PipeError.monthOutOfRange := by
  constructor
  · exact (c2_month_range_check c2SepTbl "S" "E").1 (by with_unfolding_all rfl)
      ⟨[("Month", some 0), ("Year", some 2014), ("Rain", some 1), ("Tmin", some 2), ("Tmax", some 3)],
        by with_unfolding_all decide, 0, by with_unfolding_all rfl, Or.inl (by norm_num)⟩
  · exact (c2_month_range_check c2CombTbl "S" "E").2.1 (by with_unfolding_all rfl)
      ⟨[("Month", some 13), ("Year", some 2014), ("Rain", some 5), ("Tmin", some 1), ("Tmax", some 2)],
        by with_unfolding_all decide, 13, by with_unfolding_all rfl, Or.inr (by norm_num)⟩

/-- C3: for every table and month `m`, the summary row of `m` has `rain_mean`
the arithmetic mean of Rain, `tmax_max` the maximum of Tmax, `tmin_mean` the
mean of Tmin and `tmin_min` the minimum of Tmin, each taken over exactly the
records whose month equals `m`; a singleton sample makes each mean the sole
value. -/
theorem c3_monthly_statistics (t : Table) (m : ℚ) :
    (monthGroup t m = t.rows.filter (fun r => decide (getCell r "Month" = some m))) ∧
    ((summarize t m).rain_mean =
      (columnVals (monthGroup t m) "Rain").sum / (columnVals (monthGroup t m) "Rain").length) ∧
    ((summarize t m).tmin_mean =
      (columnVals (monthGroup t m) "Tmin").sum / (columnVals (monthGroup t m) "Tmin").length) ∧
    (columnVals (monthGroup t m) "Tmax" ≠ [] →
      (summarize t m).tmax_max ∈ columnVals (monthGroup t m) "Tmax" ∧
      ∀ v ∈ columnVals (monthGroup t m) "Tmax", v ≤ (summarize t m).tmax_max) ∧
    (columnVals (monthGroup t m) "Tmin" ≠ [] →
      (summarize t m).tmin_min ∈ columnVals (monthGroup t m) "Tmin" ∧
      ∀ v ∈ columnVals (monthGroup t m) "Tmin", (summarize t m).tmin_min ≤ v) ∧
    (∀ v : ℚ, columnVals (monthGroup t m) "Rain" = [v] → (summarize t m).rain_mean = v) ∧
    (∀ v : ℚ, columnVals (monthGroup t m) "Tmin" = [v] → (summarize t m).tmin_mean = v) := by
  refine ⟨rfl, rfl, rfl, ?_, ?_, ?_, ?_⟩
  · intro h
    exact listMax_spec _ h
  · intro h
    exact listMin_spec _ h
  · intro v hv
    show listMean (columnVals (monthGroup t m) "Rain") = v
    rw [hv]
    exact listMean_singleton v
  · intro v hv
    show listMean (columnVals (monthGroup t m) "Tmin") = v
    rw [hv]
    exact listMean_singleton v

/-- C3 witness: for the one-record table `c3Tbl` and month 5 the means equal
the sole sample values and the extrema are attained. -/
theorem c3_monthly_statistics_witness :
    (summarize c3Tbl 5).rain_mean = 41.5 ∧
    (summarize c3Tbl 5).tmax_max ∈ columnVals (monthGroup c3Tbl 5) "Tmax" ∧
    (summarize c3Tbl 5).tmin_min ≤ -3.5 ∧
    (summarize c3Tbl 5).tmin_mean = -3.5 := by
  have h := c3_monthly_statistics c3Tbl 5
  have hrain : columnVals (monthGroup c3Tbl 5) "Rain" = [41.5] := by with_unfolding_all rfl
  have htmax : columnVals (monthGroup c3Tbl 5) "Tmax" ≠ [] := by with_unfolding_all decide
  have htmin : columnVals (monthGroup c3Tbl 5) "Tmin" = [-3.5] := by with_unfolding_all rfl
  have htminne : columnVals (monthGroup c3Tbl 5) "Tmin" ≠ [] := by with_unfolding_all decide
  refine ⟨h.2.2.2.2.2.1 41.5 hrain, (h.2.2.2.1 htmax).1, ?_, h.2.2.2.2.2.2 (-3.5) htmin⟩
  exact (h.2.2.2.2.1 htminne).2 (-3.5) (by rw [htmin]; exact List.mem_singleton_self _)

/-- C4: schema classification tries the agency format first, then separate
Year/Month, then combined YearMonth/Time; the first structural match over the
column-name set wins, and when none matches the pipeline fails with the
unrecognized-schema error and produces no output. -/
theorem c4_classification_precedence (cols : List String) (s e : String) (df : Table) :
    (("Time" ∈ cols ∧ "rau" ∈ cols ∧ "tn" ∈ cols ∧ "tx" ∈ cols) →
      classify cols = Convention.hms) ∧
    (¬ ("Time" ∈ cols ∧ "rau" ∈ cols ∧ "tn" ∈ cols ∧ "tx" ∈ cols) →
      "Year" ∈ cols → "Month" ∈ cols → classify cols = Convention.separate) ∧
    (¬ ("Time" ∈ cols ∧ "rau" ∈ cols ∧ "tn" ∈ cols ∧ "tx" ∈ cols) →
      ¬ ("Year" ∈ cols ∧ "Month" ∈ cols) →
      ("YearMonth" ∈ cols ∨ "Time" ∈ cols) → classify cols = Convention.combined) ∧
    (¬ ("Time" ∈ cols ∧ "rau" ∈ cols ∧ "tn" ∈ cols ∧ "tx" ∈ cols) →
      ¬ ("Year" ∈ cols ∧ "Month" ∈ cols) →
      ¬ ("YearMonth" ∈ cols ∨ "Time" ∈ cols) → classify cols = Convention.unrecognized) ∧
    (classify df.cols = Convention.unrecognized →
      editorPipeline s e df = Except.error PipeError.unrecognizedSchema) := by
  have hcont : ∀ a : String, cols.contains a = true ↔ a ∈ cols := by
    intro a
    simp [List.contains_iff_exists_mem_beq]
  have hhms : hmsFormat cols = true ↔
      ("Time" ∈ cols ∧ "rau" ∈ cols ∧ "tn" ∈ cols ∧ "tx" ∈ cols) := by
    simp [hmsFormat, List.all_eq_true, hcont]
  refine ⟨?_, ?_, ?_, ?_, ?_⟩
  · intro h
    unfold classify
    rw [hhms.mpr h]
    rfl
  · intro h1 hY hM
    have hf : hmsFormat cols = false := by
      have : ¬ hmsFormat cols = true := fun hh => h1 (hhms.mp hh)
      simpa using this
    have hy : cols.contains "Year" = true := (hcont _).mpr hY
    have hm : cols.contains "Month" = true := (hcont _).mpr hM
    unfold classify
    rw [hf, hy, hm]
    rfl
  · intro h1 h2 h3
    have hf : hmsFormat cols = false := by
      have : ¬ hmsFormat cols = true := fun hh => h1 (hhms.mp hh)
      simpa using this
    have hym : (cols.contains "Year" && cols.contains "Month") = false := by
      have : ¬ (cols.contains "Year" && cols.contains "Month") = true := by
        rw [Bool.and_eq_true]
        rintro ⟨hy, hm⟩
        exact h2 ⟨(hcont _).mp hy, (hcont _).mp hm⟩
      simpa using this
    have hcomb : (cols.contains "YearMonth" || cols.contains "Time") = true := by
      rw [Bool.or_eq_true]
      rcases h3 with h | h
      · exact Or.inl ((hcont _).mpr h)
      · exact Or.inr ((hcont _).mpr h)
    unfold classify
    rw [hf, hym, hcomb]
    rfl
  · intro h1 h2 h3
    have hf : hmsFormat cols = false := by
      have : ¬ hmsFormat cols = true := fun hh => h1 (hhms.mp hh)
      simpa using this
    have hym : (cols.contains "Year" && cols.contains "Month") = false := by
      have : ¬ (cols.contains "Year" && cols.contains "Month") = true := by
        rw [Bool.and_eq_true]
        rintro ⟨hy, hm⟩
        exact h2 ⟨(hcont _).mp hy, (hcont _).mp hm⟩
      simpa using this
    have hcomb : (cols.contains "YearMonth" || cols.contains "Time") = false := by
      have : ¬ (cols.contains "YearMonth" || cols.contains "Time") = true := by
        rw [Bool.or_eq_true]
        rintro (h | h)
        · exact h3 (Or.inl ((hcont _).mp h))
        · exact h3 (Or.inr ((hcont _).mp h))
      simpa using this
    unfold classify
    rw [hf, hym, hcomb]
    rfl
  · intro hcls
    unfold editorPipeline normalizeAndValidate
    rw [hcls]
    rfl

/-- C4 witness: the precedence on concrete column sets, including overlap
cases, and the pipeline error on an unrecognized table. -/
theorem c4_classification_precedence_witness :
    classify ["Time", "rau", "tn", "tx", "Year", "Month"] = Convention.hms ∧
    classify ["Year", "Month", "YearMonth"] = Convention.separate ∧
    classify ["YearMonth", "Time", "Rain"] = Convention.combined ∧
    classify ["Precip", "Temp"] = Convention.unrecognized ∧
    editorPipeline "S" "E" c4Tbl = Except.error PipeError.unrecognizedSchema := by
  refine ⟨?_, ?_, ?_, ?_, ?_⟩
  · exact (c4_classification_precedence ["Time", "rau", "tn", "tx", "Year", "Month"]
      "S" "E" c4Tbl).1 (by decide)
  · exact (c4_classification_precedence ["Year", "Month", "YearMonth"]
      "S" "E" c4Tbl).2.1 (by decide) (by decide) (by decide)
  · exact (c4_classification_precedence ["YearMonth", "Time", "Rain"]
      "S" "E" c4Tbl).2.2.1 (by decide) (by decide) (by decide)
  · exact (c4_classification_precedence ["Precip", "Temp"]
      "S" "E" c4Tbl).2.2.2.1 (by decide) (by decide) (by decide)
  · exact (c4_classification_precedence [] "S" "E" c4Tbl).2.2.2.2 (by with_unfolding_all rfl)

/-- C5: the agency and combined normalizations derive Year = code // 100 and
Month = code % 100 from a YYYYMM integer date code, and the agency scenario
row Time=201401, rau=36.9, tn=-7.4, tx=13.8 normalizes to Year 2014, Month 1,
Rain 36.9, Tmin -7.4, Tmax 13.8. -/
theorem c5_yearmonth_split (t : Table) (i : ℕ) (r0 : Row) (n : ℤ) :
    ((dropna t ["YearMonth"]).rows[i]? = some r0 → getCell r0 "YearMonth" = some (n : ℚ) →
      (splitYearMonth t "YearMonth").rows[i]?.map
          (fun r' => (getCell r' "Year", getCell r' "Month")) =
        some (some ((Int.fdiv n 100 : ℤ) : ℚ), some ((Int.fmod n 100 : ℤ) : ℚ))) ∧
    ((dropna t ["Time"]).rows[i]? = some r0 → getCell r0 "Time" = some (n : ℚ) →
      (splitYearMonth t "Time").rows[i]?.map
          (fun r' => (getCell r' "Year", getCell r' "Month")) =
        some (some ((Int.fdiv n 100 : ℤ) : ℚ), some ((Int.fmod n 100 : ℤ) : ℚ))) ∧
    ((hmsNormalize c5Tbl).rows.map (fun r => (getCell r "Year", getCell r "Month",
        getCell r "Rain", getCell r "Tmin", getCell r "Tmax")) =
      [(some 2014, some 1, some 36.9, some (-7.4), some 13.8)]) := by
  refine ⟨?_, ?_, ?_⟩
  · intro h0 hc
    exact splitYearMonth_getElem t "YearMonth" (by decide) (by decide) i r0 h0 n hc
  · intro h0 hc
    exact splitYearMonth_getElem t "Time" (by decide) (by decide) i r0 h0 n hc
  · with_unfolding_all rfl

/-- C5 witness: the split applied to the concrete agency scenario table at
row 0 yields year 2014 and month 1. -/
theorem c5_yearmonth_split_witness :
    (dropna c5Tbl ["Time"]).rows[0]? = some (mkAgencyRow 201401 36.9 (-7.4) 13.8) ∧
    (splitYearMonth c5Tbl "Time").rows[0]?.map
        (fun r' => (getCell r' "Year", getCell r' "Month")) =
      some (some ((Int.fdiv 201401 100 : ℤ) : ℚ), some ((Int.fmod 201401 100 : ℤ) : ℚ)) := by
  refine ⟨by with_unfolding_all rfl, ?_⟩
  exact (c5_yearmonth_split c5Tbl 0 (mkAgencyRow 201401 36.9 (-7.4) 13.8) 201401).2.1
    (by with_unfolding_all rfl) (by with_unfolding_all rfl)

/-- C6 counterexample: `c6Tbl` passes every validation check (twelve records
for its single year) yet the aggregator emits 11 rows rather than one row per
month 1-12, because month 2 is duplicated and month 3 missing. -/
theorem c6_eleven_rows_after_validation :
    (editorPipeline "S" "E" c6Tbl).map (fun o => o.summaries.map Summary.month) =
      Except.ok [1, 2, 4, 5, 6, 7, 8, 9, 10, 11, 12] ∧
    (editorPipeline "S" "E" c6Tbl).map (fun o => o.summaries.length) = Except.ok 11 := by
  exact ⟨by with_unfolding_all rfl, by with_unfolding_all rfl⟩

/-- C6 (amended): for every dataset that passes validation and whose
validated records carry integer months covering exactly 1..12, the aggregator
emits exactly 12 summary rows, one per month 1-12 in ascending order,
regardless of the number of years and of the row order of the input. -/
theorem c6_twelve_rows (df t : Table) (s e : String)
    (hok : normalizeAndValidate df = Except.ok t)
    (h1 : ∀ r ∈ t.rows, getCell r "Month" ∈ monthLits.map some)
    (h2 : ∀ q ∈ monthLits, some q ∈ t.rows.map (fun r => getCell r "Month")) :
    (editorPipeline s e df).map (fun o => o.summaries.map Summary.month) =
      Except.ok [1, 2, 3, 4, 5, 6, 7, 8, 9, 10, 11, 12] ∧
    (editorPipeline s e df).map (fun o => o.summaries.length) = Except.ok 12 := by
  have hms : (monthlyAgg t).map Summary.month = monthLits := by
    rw [monthlyAgg_month_map]
    exact monthsSorted_of_cover t h1 h2
  have hlen : (monthlyAgg t).length = 12 := by
    have hl := congrArg List.length hms
    rwa [List.length_map] at hl
  unfold editorPipeline
  rw [hok]
  constructor
  · show Except.ok ((processValidated s e t).summaries.map Summary.month) = _
    rw [show (processValidated s e t).summaries = monthlyAgg t from rfl, hms]
    rfl
  · show Except.ok ((processValidated s e t).summaries.length) = _
    rw [show (processValidated s e t).summaries = monthlyAgg t from rfl, hlen]

/-- C6 witness: the complete single-year table `c6wTbl` yields exactly the
twelve months in ascending order. -/
theorem c6_twelve_rows_witness :
    (editorPipeline "S" "E" c6wTbl).map (fun o => o.summaries.map Summary.month) =
      Except.ok [1, 2, 3, 4, 5, 6, 7, 8, 9, 10, 11, 12] := by
  have hok : normalizeAndValidate c6wTbl = Except.ok (sepNormalize c6wTbl) := by
    with_unfolding_all rfl
  have h1 : ∀ r ∈ (sepNormalize c6wTbl).rows, getCell r "Month" ∈ monthLits.map some := by
    with_unfolding_all decide
  have h2 : ∀ q ∈ monthLits,
      some q ∈ (sepNormalize c6wTbl).rows.map (fun r => getCell r "Month") := by
    with_unfolding_all decide
  exact (c6_twelve_rows c6wTbl (sepNormalize c6wTbl) "S" "E" hok h1 h2).1

/-- C7: after the rename of line 128 the summary columns are
Month/Rain_mean/Tmax_max/Tmin_mean/Tmin_min, but the renderer of lines
149-152 reads Rain/Tmax/Tmin/Tmin_abs, so its first lookup fails with a
KeyError on every input and no text block is ever emitted; concretely the
fully validated table `c7Tbl` reaches the renderer and the renderer fails on
the key Rain. -/
theorem c7_render_always_keyerror :
    (∀ (s e : String) (df : Table),
      renderBlock s e (monthlyAvgTable df) = Except.error "Rain") ∧
    (editorPipeline "Pocsaj" "97" c7Tbl).map (fun o => o.rcode) =
      Except.ok (Except.error "Rain") := by
  constructor
  · intro s e df
    with_unfolding_all rfl
  · with_unfolding_all rfl

/-- C8 counterexample: in `c8Tbl` the Rain value of month 1 is null; the row
is not dropped by normalization (all 12 rows survive) and the pipeline stops
with the missing-values error instead of dropping the record. -/
theorem c8_null_rain_not_dropped :
    editorPipeline "S" "E" c8Tbl = Except.error PipeError.missingValues ∧
    (sepNormalize c8Tbl).rows.length = 12 := by
  exact ⟨by with_unfolding_all rfl, by with_unfolding_all rfl⟩

/-- C8 (amended): in every convention, normalization coerces only the date
columns of the matched convention and drops exactly the rows whose date cells
fail coercion — Year/Month in the separate branch, the YearMonth/Time code
column in the combined branch, and the renamed YearMonth column in the agency
branch; measurement columns are not coerced, and a null measurement value is
not dropped but reported by the missing-values check. -/
theorem c8_coercion_scope (df : Table) (col : String) (s e : String) :
    ((sepNormalize df).rows.length =
      (df.rows.filter
        (fun r => (getCell r "Year").isSome && (getCell r "Month").isSome)).length) ∧
    ((splitYearMonth df col).rows.length =
      (df.rows.filter (fun r => (getCell r col).isSome)).length) ∧
    ((combNormalize df).rows.length =
      (df.rows.filter (fun r => (getCell r (combCol df.cols)).isSome)).length) ∧
    ((hmsNormalize df).rows.length =
      ((renameCols df hmsRename).rows.filter
        (fun r => (getCell r "YearMonth").isSome)).length) ∧
    (classify df.cols = Convention.separate →
      monthsInRange (sepNormalize df) = true →
      requiredPresent (sepNormalize df) stdRequired = true →
      anyNullIn (sepNormalize df) stdRequired = true →
      editorPipeline s e df = Except.error PipeError.missingValues) ∧
    (classify df.cols = Convention.combined →
      monthsInRange (combNormalize df) = true →
      requiredPresent (combNormalize df) stdRequired = true →
      anyNullIn (combNormalize df) stdRequired = true →
      editorPipeline s e df = Except.error PipeError.missingValues) ∧
    (classify df.cols = Convention.hms →
      requiredPresent (hmsNormalize df) hmsRequired = true →
      anyNullIn (hmsNormalize df) hmsRequired = true →
      editorPipeline s e df = Except.error PipeError.missingValues) ∧
    ((sepNormalize c8DropTbl).rows.length = 1) ∧
    ((splitYearMonth c8CombDropTbl "YearMonth").rows.length = 1) := by
  refine ⟨?_, ?_, ?_, ?_, ?_, ?_, ?_, ?_, ?_⟩
  · unfold sepNormalize mapCol setCol dropna
    dsimp only
    rw [List.length_map, List.length_map]
    congr 1
    apply List.filter_congr
    intro r _
    simp [List.all_cons]
  · exact splitYearMonth_length df col
  · exact splitYearMonth_length df (combCol df.cols)
  · exact splitYearMonth_length (renameCols df hmsRename) "YearMonth"
  · intro hcls hrange hreq hnull
    unfold editorPipeline normalizeAndValidate
    rw [hcls]
    dsimp only
    rw [hrange]
    unfold commonValidate
    rw [hreq, hnull]
    rfl
  · intro hcls hrange hreq hnull
    unfold editorPipeline normalizeAndValidate
    rw [hcls]
    dsimp only
    rw [hrange]
    unfold commonValidate
    rw [hreq, hnull]
    rfl
  · intro hcls hreq hnull
    unfold editorPipeline normalizeAndValidate
    rw [hcls]
    dsimp only
    unfold commonValidate
    rw [hreq, hnull]
    rfl
  · with_unfolding_all rfl
  · with_unfolding_all rfl

/-- C8 witness: a null Rain (resp. rau) value in an otherwise complete year
is rejected with the missing-values error in the separate, combined and
agency conventions alike. -/
theorem c8_coercion_scope_witness :
    editorPipeline "St" "El" c8Tbl = Except.error PipeError.missingValues ∧
    editorPipeline "St" "El" c8CombTbl = Except.error PipeError.missingValues ∧
    editorPipeline "St" "El" c8HmsTbl = Except.error PipeError.missingValues := by
  refine ⟨?_, ?_, ?_⟩
  · exact (c8_coercion_scope c8Tbl "YearMonth" "St" "El").2.2.2.2.1
      (by with_unfolding_all rfl) (by with_unfolding_all rfl)
      (by with_unfolding_all rfl) (by with_unfolding_all rfl)
  · exact (c8_coercion_scope c8CombTbl "YearMonth" "St" "El").2.2.2.2.2.1
      (by with_unfolding_all rfl) (by with_unfolding_all rfl)
      (by with_unfolding_all rfl) (by with_unfolding_all rfl)
  · exact (c8_coercion_scope c8HmsTbl "YearMonth" "St" "El").2.2.2.2.2.2.1
      (by with_unfolding_all rfl) (by with_unfolding_all rfl)
      (by with_unfolding_all rfl)

/-- C9 counterexample: `c9Tbl` lacks the Rain column and contains month 13;
the pipeline reports the month-out-of-range error, not the missing-columns
error, because the range check of line 74 runs inside the branch before the
column check of line 105. -/
theorem c9_month_check_precedes_columns :
    editorPipeline "S" "E" c9Tbl = Except.error PipeError.monthOutOfRange ∧
    requiredPresent (sepNormalize c9Tbl) stdRequired = false := by
  exact ⟨by with_unfolding_all rfl, by with_unfolding_all rfl⟩

/-- C9 (amended): the failure reported for an input violating several
constraints is fixed by the check order of the matched branch.  In the
separate and combined branches the order is month-out-of-range (during
branch normalization), then missing columns, then null values, then
incomplete years; hence an input lacking Rain with month 13 fails with the
month error, not the missing-columns error.  The agency branch has no month
range check and always produces the required columns, so its observable
order is null values, then incomplete years. -/
theorem c9_check_order (df : Table) (s e : String) :
    (classify df.cols = Convention.separate →
      (monthsInRange (sepNormalize df) = false →
        editorPipeline s e df = Except.error PipeError.monthOutOfRange) ∧
      (monthsInRange (sepNormalize df) = true →
        requiredPresent (sepNormalize df) stdRequired = false →
        editorPipeline s e df = Except.error (PipeError.missingColumns stdRequired)) ∧
      (monthsInRange (sepNormalize df) = true →
        requiredPresent (sepNormalize df) stdRequired = true →
        anyNullIn (sepNormalize df) stdRequired = true →
        editorPipeline s e df = Except.error PipeError.missingValues) ∧
      (monthsInRange (sepNormalize df) = true →
        requiredPresent (sepNormalize df) stdRequired = true →
        anyNullIn (sepNormalize df) stdRequired = false →
        incompleteYearsOf (sepNormalize df) ≠ [] →
        editorPipeline s e df =
          Except.error (PipeError.incompleteYears (incompleteYearsOf (sepNormalize df))))) ∧
    (classify df.cols = Convention.combined →
      (monthsInRange (combNormalize df) = false →
        editorPipeline s e df = Except.error PipeError.monthOutOfRange) ∧
      (monthsInRange (combNormalize df) = true →
        requiredPresent (combNormalize df) stdRequired = false →
        editorPipeline s e df = Except.error (PipeError.missingColumns stdRequired)) ∧
      (monthsInRange (combNormalize df) = true →
        requiredPresent (combNormalize df) stdRequired = true →
        anyNullIn (combNormalize df) stdRequired = true →
        editorPipeline s e df = Except.error PipeError.missingValues) ∧
      (monthsInRange (combNormalize df) = true →
        requiredPresent (combNormalize df) stdRequired = true →
        anyNullIn (combNormalize df) stdRequired = false →
        incompleteYearsOf (combNormalize df) ≠ [] →
        editorPipeline s e df =
          Except.error (PipeError.incompleteYears (incompleteYearsOf (combNormalize df))))) ∧
    (classify df.cols = Convention.hms →
      (requiredPresent (hmsNormalize df) hmsRequired = true →
        anyNullIn (hmsNormalize df) hmsRequired = true →
        editorPipeline s e df = Except.error PipeError.missingValues) ∧
      (requiredPresent (hmsNormalize df) hmsRequired = true →
        anyNullIn (hmsNormalize df) hmsRequired = false →
        incompleteYearsOf (hmsNormalize df) ≠ [] →
        editorPipeline s e df =
          Except.error (PipeError.incompleteYears (incompleteYearsOf (hmsNormalize df))))) := by
  refine ⟨?_, ?_, ?_⟩
  · intro hcls
    refine ⟨?_, ?_, ?_, ?_⟩
    · intro hrange
      unfold editorPipeline normalizeAndValidate
      rw [hcls]
      dsimp only
      rw [hrange]
      rfl
    · intro hrange hreq
      unfold editorPipeline normalizeAndValidate
      rw [hcls]
      dsimp only
      rw [hrange]
      unfold commonValidate
      rw [hreq]
      rfl
    · intro hrange hreq hnull
      unfold editorPipeline normalizeAndValidate
      rw [hcls]
      dsimp only
      rw [hrange]
      unfold commonValidate
      rw [hreq, hnull]
      rfl
    · intro hrange hreq hnull hinc
      have hempty : (incompleteYearsOf (sepNormalize df)).isEmpty = false := by
        cases hie : incompleteYearsOf (sepNormalize df) with
        | nil => exact absurd hie hinc
        | cons a l => rfl
      unfold editorPipeline normalizeAndValidate
      rw [hcls]
      dsimp only
      rw [hrange]
      unfold commonValidate
      rw [hreq, hnull, hempty]
      rfl
  · intro hcls
    refine ⟨?_, ?_, ?_, ?_⟩
    · intro hrange
      unfold editorPipeline normalizeAndValidate
      rw [hcls]
      dsimp only
      rw [hrange]
      rfl
    · intro hrange hreq
      unfold editorPipeline normalizeAndValidate
      rw [hcls]
      dsimp only
      rw [hrange]
      unfold commonValidate
      rw [hreq]
      rfl
    · intro hrange hreq hnull
      unfold editorPipeline normalizeAndValidate
      rw [hcls]
      dsimp only
      rw [hrange]
      unfold commonValidate
      rw [hreq, hnull]
      rfl
    · intro hrange hreq hnull hinc
      have hempty : (incompleteYearsOf (combNormalize df)).isEmpty = false := by
        cases hie : incompleteYearsOf (combNormalize df) with
        | nil => exact absurd hie hinc
        | cons a l => rfl
      unfold editorPipeline normalizeAndValidate
      rw [hcls]
      dsimp only
      rw [hrange]
      unfold commonValidate
      rw [hreq, hnull, hempty]
      rfl
  · intro hcls
    refine ⟨?_, ?_⟩
    · intro hreq hnull
      unfold editorPipeline normalizeAndValidate
      rw [hcls]
      dsimp only
      unfold commonValidate
      rw [hreq, hnull]
      rfl
    · intro hreq hnull hinc
      have hempty : (incompleteYearsOf (hmsNormalize df)).isEmpty = false := by
        cases hie : incompleteYearsOf (hmsNormalize df) with
        | nil => exact absurd hie hinc
        | cons a l => rfl
      unfold editorPipeline normalizeAndValidate
      rw [hcls]
      dsimp only
      unfold commonValidate
      rw [hreq, hnull, hempty]
      rfl

/-- C9 witness: the failure classes on concrete inputs of all three
conventions, in particular the claim scenario `c9Tbl` (no Rain column,
month 13) failing with the month error. -/
theorem c9_check_order_witness :
    editorPipeline "S" "E" c9Tbl = Except.error PipeError.monthOutOfRange ∧
    editorPipeline "S" "E" c9ColsTbl = Except.error (PipeError.missingColumns stdRequired) ∧
    editorPipeline "S" "E" c9NullTbl = Except.error PipeError.missingValues ∧
    editorPipeline "S" "E" c9IncTbl =
      Except.error (PipeError.incompleteYears (incompleteYearsOf (sepNormalize c9IncTbl))) ∧
    editorPipeline "S" "E" c9CombTbl = Except.error PipeError.monthOutOfRange ∧
    editorPipeline "S" "E" c9CombColsTbl = Except.error (PipeError.missingColumns stdRequired) ∧
    editorPipeline "S" "E" c9CombNullTbl = Except.error PipeError.missingValues ∧
    editorPipeline "S" "E" c9CombIncTbl =
      Except.error (PipeError.incompleteYears (incompleteYearsOf (combNormalize c9CombIncTbl))) ∧
    editorPipeline "S" "E" c9HmsNullTbl = Except.error PipeError.missingValues ∧
    editorPipeline "S" "E" c9HmsIncTbl =
      Except.error (PipeError.incompleteYears (incompleteYearsOf (hmsNormalize c9HmsIncTbl))) := by
  refine ⟨?_, ?_, ?_, ?_, ?_, ?_, ?_, ?_, ?_, ?_⟩
  · exact ((c9_check_order c9Tbl "S" "E").1 (by with_unfolding_all rfl)).1
      (by with_unfolding_all rfl)
  · exact ((c9_check_order c9ColsTbl "S" "E").1 (by with_unfolding_all rfl)).2.1
      (by with_unfolding_all rfl) (by with_unfolding_all rfl)
  · exact ((c9_check_order c9NullTbl "S" "E").1 (by with_unfolding_all rfl)).2.2.1
      (by with_unfolding_all rfl) (by with_unfolding_all rfl) (by with_unfolding_all rfl)
  · exact ((c9_check_order c9IncTbl "S" "E").1 (by with_unfolding_all rfl)).2.2.2
      (by with_unfolding_all rfl) (by with_unfolding_all rfl) (by with_unfolding_all rfl)
      (by with_unfolding_all decide)
  · exact ((c9_check_order c9CombTbl "S" "E").2.1 (by with_unfolding_all rfl)).1
      (by with_unfolding_all rfl)
  · exact ((c9_check_order c9CombColsTbl "S" "E").2.1 (by with_unfolding_all rfl)).2.1
      (by with_unfolding_all rfl) (by with_unfolding_all rfl)
  · exact ((c9_check_order c9CombNullTbl "S" "E").2.1 (by with_unfolding_all rfl)).2.2.1
      (by with_unfolding_all rfl) (by with_unfolding_all rfl) (by with_unfolding_all rfl)
  · exact ((c9_check_order c9CombIncTbl "S" "E").2.1 (by with_unfolding_all rfl)).2.2.2
      (by with_unfolding_all rfl) (by with_unfolding_all rfl) (by with_unfolding_all rfl)
      (by with_unfolding_all decide)
  · exact ((c9_check_order c9HmsNullTbl "S" "E").2.2 (by with_unfolding_all rfl)).1
      (by with_unfolding_all rfl) (by with_unfolding_all rfl)
  · exact ((c9_check_order c9HmsIncTbl "S" "E").2.2 (by with_unfolding_all rfl)).2
      (by with_unfolding_all rfl) (by with_unfolding_all rfl)
      (by with_unfolding_all decide)

/-- C10: the reported average yearly rainfall equals the arithmetic mean,
over all years present, of each year's Rain sum, and the pipeline reports
exactly this value for every validated input. -/
theorem c10_mean_of_yearly_sums (t : Table) (s e : String) (df : Table) :
    averageYearlyRainfall t = meanYearlySumSpec t ∧
    (editorPipeline s e df).map (fun o => o.avgYearRain) =
      (normalizeAndValidate df).map meanYearlySumSpec := by
  constructor
  · exact avgYearlyRain_eq_spec t
  · unfold editorPipeline
    cases hnv : normalizeAndValidate df with
    | error err => rfl
    | ok t' =>
      show Except.ok (processValidated s e t').avgYearRain = Except.ok (meanYearlySumSpec t')
      rw [show (processValidated s e t').avgYearRain = averageYearlyRainfall t' from rfl,
        avgYearlyRain_eq_spec t']

end CDE
